import Mathlib

set_option autoImplicit false

/-!
Shallow embedding of the Framework/Device/Backend/Error composition core of
the collenchyma repository (src/backend.rs, src/framework.rs,
src/frameworks/cuda/api/error.rs, src/frameworks/cuda/api/mod.rs).

Rust `Result<T, E>` is embedded as `Except E T`; machine handles are `Nat`;
`clone()` on plain data is the identity on the embedded value.  Operations
that may call into the native driver are instrumented: they return their
result together with a `Nat` counting how many native driver calls were
issued, so that "no native call happens" is a provable statement.
-/

namespace Collenchyma

/-- Model of the per-character escaping performed by the crate-era Rust
Debug formatting of strings (`Debug for str` built on
`char::escape_default`), as invoked by the `{:?}` format of the
`fmt::Display` impl in src/frameworks/cuda/api/error.rs: double quote,
single quote, backslash, newline, tab and carriage return get a backslash
escape, printable ASCII is kept unchanged, and every other character
(control characters, DEL and all non-ASCII) becomes a unicode escape. -/
def escapeDebugChar (c : Char) : List Char :=
  if c = '"' then ['\\', '"']
  else if c = '\'' then ['\\', '\'']
  else if c = '\\' then ['\\', '\\']
  else if c = '\n' then ['\\', 'n']
  else if c = '\t' then ['\\', 't']
  else if c = '\r' then ['\\', 'r']
  else if 32 ≤ c.toNat ∧ c.toNat ≤ 126 then [c]
  else '\\' :: 'u' :: '\x7b' :: (Nat.toDigits 16 c.toNat ++ ['\x7d'])

/-- Debug-escape every character of a character list. -/
def escapeDebugList : List Char → List Char
  | [] => []
  | c :: cs => escapeDebugChar c ++ escapeDebugList cs

/-- Model of Rust's Debug formatting `{:?}` of a string value: the escaped
text surrounded by double quotes.  This is what
`write!(f, "{:?}", err)` produces for `err : &String` in the Display impl
of src/frameworks/cuda/api/error.rs. -/
def formatDebug (s : String) : String :=
  "\"" ++ String.mk (escapeDebugList s.data) ++ "\""

/-- The native status enumeration of src/frameworks/cuda/api/error.rs
(`pub enum Error`), twenty variants each carrying a diagnostic message.
Per the spec this variant set is the OpenCL status vocabulary reused
verbatim inside the CUDA api module, so it also stands for the
`frameworks::opencl::Error` type wrapped by src/framework.rs. -/
inductive NativeError where
  | InvalidPlatform (msg : String)
  | InvalidDevice (msg : String)
  | InvalidDeviceType (msg : String)
  | InvalidContext (msg : String)
  | InvalidMemObject (msg : String)
  | InvalidCommandQueue (msg : String)
  | InvalidEventWaitList (msg : String)
  | InvalidValue (msg : String)
  | InvalidProperty (msg : String)
  | InvalidOperation (msg : String)
  | InvalidBufferSize (msg : String)
  | InvalidHostPtr (msg : String)
  | DeviceNotFound (msg : String)
  | DeviceNotAvailable (msg : String)
  | MemObjectAllocationFailure (msg : String)
  | MisalignedSubBufferOffset (msg : String)
  | ExecStatusErrorForEventsInWaitList (msg : String)
  | OutOfResources (msg : String)
  | OutOfHostMemory (msg : String)
  | Other (msg : String)
deriving DecidableEq, Repr

/-- The diagnostic message carried by a native status value (the data-model
attribute: each variant's `String` payload). -/
def NativeError.message : NativeError → String
  | NativeError.InvalidPlatform msg => msg
  | NativeError.InvalidDevice msg => msg
  | NativeError.InvalidDeviceType msg => msg
  | NativeError.InvalidContext msg => msg
  | NativeError.InvalidMemObject msg => msg
  | NativeError.InvalidCommandQueue msg => msg
  | NativeError.InvalidEventWaitList msg => msg
  | NativeError.InvalidValue msg => msg
  | NativeError.InvalidProperty msg => msg
  | NativeError.InvalidOperation msg => msg
  | NativeError.InvalidBufferSize msg => msg
  | NativeError.InvalidHostPtr msg => msg
  | NativeError.DeviceNotFound msg => msg
  | NativeError.DeviceNotAvailable msg => msg
  | NativeError.MemObjectAllocationFailure msg => msg
  | NativeError.MisalignedSubBufferOffset msg => msg
  | NativeError.ExecStatusErrorForEventsInWaitList msg => msg
  | NativeError.OutOfResources msg => msg
  | NativeError.OutOfHostMemory msg => msg
  | NativeError.Other msg => msg

/-- Translation of `fn description(&self) -> &str` of the
`impl error::Error for Error` in src/frameworks/cuda/api/error.rs: every
variant returns its payload string as-is. -/
def NativeError.description : NativeError → String
  | NativeError.InvalidPlatform err => err
  | NativeError.InvalidDevice err => err
  | NativeError.InvalidDeviceType err => err
  | NativeError.InvalidContext err => err
  | NativeError.InvalidMemObject err => err
  | NativeError.InvalidCommandQueue err => err
  | NativeError.InvalidEventWaitList err => err
  | NativeError.InvalidValue err => err
  | NativeError.InvalidProperty err => err
  | NativeError.InvalidOperation err => err
  | NativeError.InvalidBufferSize err => err
  | NativeError.InvalidHostPtr err => err
  | NativeError.DeviceNotFound err => err
  | NativeError.DeviceNotAvailable err => err
  | NativeError.MemObjectAllocationFailure err => err
  | NativeError.MisalignedSubBufferOffset err => err
  | NativeError.ExecStatusErrorForEventsInWaitList err => err
  | NativeError.OutOfResources err => err
  | NativeError.OutOfHostMemory err => err
  | NativeError.Other err => err

/-- Translation of the `impl fmt::Display for Error` in
src/frameworks/cuda/api/error.rs: every variant is rendered with
`write!(f, "{:?}", err)`, i.e. the Debug formatting of its payload string. -/
def NativeError.display : NativeError → String
  | NativeError.InvalidPlatform err => formatDebug err
  | NativeError.InvalidDevice err => formatDebug err
  | NativeError.InvalidDeviceType err => formatDebug err
  | NativeError.InvalidContext err => formatDebug err
  | NativeError.InvalidMemObject err => formatDebug err
  | NativeError.InvalidCommandQueue err => formatDebug err
  | NativeError.InvalidEventWaitList err => formatDebug err
  | NativeError.InvalidValue err => formatDebug err
  | NativeError.InvalidProperty err => formatDebug err
  | NativeError.InvalidOperation err => formatDebug err
  | NativeError.InvalidBufferSize err => formatDebug err
  | NativeError.InvalidHostPtr err => formatDebug err
  | NativeError.DeviceNotFound err => formatDebug err
  | NativeError.DeviceNotAvailable err => formatDebug err
  | NativeError.MemObjectAllocationFailure err => formatDebug err
  | NativeError.MisalignedSubBufferOffset err => formatDebug err
  | NativeError.ExecStatusErrorForEventsInWaitList err => formatDebug err
  | NativeError.OutOfResources err => formatDebug err
  | NativeError.OutOfHostMemory err => formatDebug err
  | NativeError.Other err => formatDebug err

/-- Translation of `fn cause(&self) -> Option<&error::Error>` of the
`impl error::Error for Error` in src/frameworks/cuda/api/error.rs: every
variant returns `None`. -/
def NativeError.cause : NativeError → Option NativeError
  | NativeError.InvalidPlatform _ => none
  | NativeError.InvalidDevice _ => none
  | NativeError.InvalidDeviceType _ => none
  | NativeError.InvalidContext _ => none
  | NativeError.InvalidMemObject _ => none
  | NativeError.InvalidCommandQueue _ => none
  | NativeError.InvalidEventWaitList _ => none
  | NativeError.InvalidValue _ => none
  | NativeError.InvalidProperty _ => none
  | NativeError.InvalidOperation _ => none
  | NativeError.InvalidBufferSize _ => none
  | NativeError.InvalidHostPtr _ => none
  | NativeError.DeviceNotFound _ => none
  | NativeError.DeviceNotAvailable _ => none
  | NativeError.MemObjectAllocationFailure _ => none
  | NativeError.MisalignedSubBufferOffset _ => none
  | NativeError.ExecStatusErrorForEventsInWaitList _ => none
  | NativeError.OutOfResources _ => none
  | NativeError.OutOfHostMemory _ => none
  | NativeError.Other _ => none

/-- The framework-level error of src/framework.rs (`pub enum Error`): a
tagged union with exactly one variant, `OpenCL`, wrapping the native
status value. -/
inductive FrameworkError where
  | OpenCL (err : NativeError)
deriving DecidableEq, Repr

/-- The wrapped native status of a framework-level error (total, since the
enumeration in src/framework.rs has the single variant `OpenCL`). -/
def FrameworkError.unwrap : FrameworkError → NativeError
  | FrameworkError.OpenCL err => err

/-- Translation of the `impl fmt::Display for Error` in src/framework.rs:
`Error::OpenCL(ref err) => write!(f, "OpenCL error: {}", err)`, where the
inner rendering is the native Display. -/
def FrameworkError.display : FrameworkError → String
  | FrameworkError.OpenCL err => "OpenCL error: " ++ err.display

/-- The framework-family name prefixed by the Display impl in
src/framework.rs: the `OpenCL` variant is rendered with the prefix
"OpenCL error: ". -/
def frameworkErrorOrigin : FrameworkError → String
  | FrameworkError.OpenCL _ => "OpenCL"

/-- Translation of `fn description(&self)` of the
`impl error::Error for Error` in src/framework.rs: forwards to the wrapped
native error's description. -/
def FrameworkError.description : FrameworkError → String
  | FrameworkError.OpenCL err => err.description

/-- Translation of `fn cause(&self)` of the `impl error::Error for Error` in
src/framework.rs: `Error::OpenCL(ref err) => Some(err)`. -/
def FrameworkError.cause : FrameworkError → Option NativeError
  | FrameworkError.OpenCL err => some err

/-- Translation of `impl From<OpenCLError> for Error` in src/framework.rs:
the native error is wrapped in the `OpenCL` variant. -/
def frameworkFromNative (err : NativeError) : FrameworkError :=
  FrameworkError.OpenCL err

/-- The crate-wide error type.  Its `Framework` constructor is visible in
src/framework.rs (`impl From<Error> for ::error::Error` builds
`::error::Error::Framework(err)`).  Modelled from the spec: the defining
module (error.rs) is not part of the visible source; per the spec the
crate-wide layer wraps a framework error and additionally has a
`ConfigurationError` variant produced entirely within this core, not from
any native call. -/
inductive Error where
  | Framework (err : FrameworkError)
  | ConfigurationError (msg : String)
deriving DecidableEq, Repr

/-- Translation of `impl From<Error> for ::error::Error` in src/framework.rs:
the framework error is wrapped in the crate-wide `Framework` variant. -/
def errorFromFramework (err : FrameworkError) : Error :=
  Error.Framework err

/-- The wrapped framework error of a crate-wide error, when it has one. -/
def Error.unwrapFramework : Error → Option FrameworkError
  | Error.Framework err => some err
  | Error.ConfigurationError _ => none

/-- Modelled from the spec: the crate-wide Display (error.rs is not part of
the visible source); the top-level Display always includes the originating
framework's name as a prefix to the native message, i.e. it forwards to the
framework-level Display for wrapped framework errors. -/
def Error.display : Error → String
  | Error.Framework err => err.display
  | Error.ConfigurationError msg => msg

/-- Modelled from the spec: a discovered compute unit descriptor (hardware.rs
is not part of the visible source); leaf data whose identity is what
membership checks compare. -/
structure Hardware where
  id : String
deriving DecidableEq, Repr

/-- Modelled from the spec: a compiled, framework-specific collection of
named kernels (the Binary types of the framework modules are not part of
the visible source); a cheaply cloneable opaque handle. -/
structure Binary where
  handle : Nat
deriving DecidableEq, Repr

/-- Modelled from the spec: the `DeviceType` of device.rs (not part of the
visible source); an execution context bound to the chosen Hardware subset
together with an opaque native context handle. -/
structure DeviceType where
  hardwares : List Hardware
  handle : Nat
deriving DecidableEq, Repr

/-- Modelled from the spec: an initialized Framework value (the concrete
implementations of the `IFramework` trait of src/framework.rs are not part
of the visible source); it carries its name (the trait's `ID` constant),
the Hardware list cached by `new()`, and the currently active compiled
unit returned by `binary()`. -/
structure Framework where
  id : String
  hardwares : List Hardware
  binary : Binary
deriving DecidableEq, Repr

/-- The native driver's context/queue-creation call (external collaborator,
spec section 6: `create_device(ids) -> Result<RawDeviceHandle, NativeStatus>`),
taken as an oracle parameter by the operations that may invoke it. -/
def NativeDriver : Type :=
  List Hardware → Except NativeError Nat

/-- Modelled from the spec: `new_device(subset)` of the `IFramework` trait
(src/framework.rs declares it; the implementations are not part of the
visible source).  It validates that `subset` is non-empty and that each
element belongs to the cached Hardware list (else `ConfigurationError`,
issuing no native call); otherwise it invokes the native driver's
context-creation call once, wraps a native failure through the visible
`From` conversion chain of src/framework.rs, and on success returns a
Device bound to `subset`.  The second component counts native driver
calls. -/
def Framework.newDevice (fw : Framework) (native : NativeDriver)
    (subset : List Hardware) : Except Error DeviceType × Nat :=
  if subset = [] then
    (Except.error (Error.ConfigurationError "no hardware specified"), 0)
  else if ∀ hd ∈ subset, hd ∈ fw.hardwares then
    match native subset with
    | Except.ok handle => (Except.ok ⟨subset, handle⟩, 1)
    | Except.error err => (Except.error (errorFromFramework (frameworkFromNative err)), 1)
  else
    (Except.error (Error.ConfigurationError "selected hardware not available"), 0)

/-- Translation of `pub struct BackendConfig<F>` in src/backend.rs: a
Framework value paired with the chosen Hardware subset. -/
structure BackendConfig where
  framework : Framework
  hardwares : List Hardware
deriving DecidableEq, Repr

/-- Translation of `BackendConfig::new` in src/backend.rs: pairs a cloned
Framework with the chosen Hardware subset, with no validation (cloning is
the identity on the embedded value). -/
def BackendConfig.new (framework : Framework) (hardwares : List Hardware) :
    BackendConfig :=
  ⟨framework, hardwares⟩

/-- Translation of `pub struct Backend<F>` in src/backend.rs: the boxed
Framework instance and the Device (the box is transparent in the
embedding). -/
structure Backend where
  framework : Framework
  device : DeviceType
deriving DecidableEq, Repr

/-- Translation of `Backend::new` in src/backend.rs: delegates to
`config.framework.new_device(config.hardwares)` via `try!`; a failure is
propagated to the caller, a success is stored together with the owned
Framework.  The native-call count of the delegated call is passed
through. -/
def Backend.new (config : BackendConfig) (native : NativeDriver) :
    Except Error Backend × Nat :=
  match config.framework.newDevice native config.hardwares with
  | (Except.ok device, n) => (Except.ok ⟨config.framework, device⟩, n)
  | (Except.error err, n) => (Except.error err, n)

/-- Translation of the accessor `hardwares()` in src/backend.rs:
`self.framework.hardwares()` — the owned Framework's cached list. -/
def Backend.hardwaresVal (b : Backend) : List Hardware :=
  b.framework.hardwares

/-- Translation of the accessor `framework()` in src/backend.rs:
`self.framework.clone()` (cloning is the identity on the embedded
value). -/
def Backend.frameworkVal (b : Backend) : Framework :=
  b.framework

/-- Translation of the accessor `device()` in src/backend.rs: a reference to
the stored Device. -/
def Backend.deviceVal (b : Backend) : DeviceType :=
  b.device

/-- Translation of the accessor `binary()` in src/backend.rs:
`self.framework().binary().clone()` — the owned Framework's compiled
unit. -/
def Backend.binaryVal (b : Backend) : Binary :=
  b.frameworkVal.binary

/-- Instrumented form of the accessor `hardwares()`: its value, the Backend
state after the call, and the number of native driver calls it issues
(the body of the accessor in src/backend.rs only reads stored fields). -/
def Backend.hardwaresAcc (b : Backend) : List Hardware × Backend × Nat :=
  (b.hardwaresVal, b, 0)

/-- Instrumented form of the accessor `framework()`: value, post-call state,
native-call count. -/
def Backend.frameworkAcc (b : Backend) : Framework × Backend × Nat :=
  (b.frameworkVal, b, 0)

/-- Instrumented form of the accessor `device()`: value, post-call state,
native-call count. -/
def Backend.deviceAcc (b : Backend) : DeviceType × Backend × Nat :=
  (b.deviceVal, b, 0)

/-- Instrumented form of the accessor `binary()`: value, post-call state,
native-call count. -/
def Backend.binaryAcc (b : Backend) : Binary × Backend × Nat :=
  (b.binaryVal, b, 0)

/-- Translation of `binary()` of `impl IBlas<f32> for Backend<OpenCL>` in
src/backend.rs: `self.binary()`. -/
def blasF32OpenCL_binary (b : Backend) : Binary :=
  b.binaryVal

/-- Translation of `device()` of `impl IBlas<f32> for Backend<OpenCL>` in
src/backend.rs: `self.device()`. -/
def blasF32OpenCL_device (b : Backend) : DeviceType :=
  b.deviceVal

/-- Translation of `binary()` of `impl IBlas<f32> for Backend<Native>` in
src/backend.rs: `self.binary()`. -/
def blasF32Native_binary (b : Backend) : Binary :=
  b.binaryVal

/-- Translation of `device()` of `impl IBlas<f32> for Backend<Native>` in
src/backend.rs: `self.device()`. -/
def blasF32Native_device (b : Backend) : DeviceType :=
  b.deviceVal

/-- Translation of `binary()` of `impl IBlas<f64> for Backend<Native>` in
src/backend.rs: `self.binary()`. -/
def blasF64Native_binary (b : Backend) : Binary :=
  b.binaryVal

/-- Translation of `device()` of `impl IBlas<f64> for Backend<Native>` in
src/backend.rs: `self.device()`. -/
def blasF64Native_device (b : Backend) : DeviceType :=
  b.deviceVal

/-- Translation of the derived `Clone` of `Backend` in src/backend.rs
(`#[derive(Debug, Clone)]`): a field-wise copy, the identity on the
embedded value. -/
def Backend.clone (b : Backend) : Backend :=
  b

/-- The Backend values the public interface of src/backend.rs can bring into
existence: results of successful `Backend::new` calls, and copies made by
the derived `Clone` impl (the only other public operation whose output
contains a Backend). -/
inductive ReachableBackend : Backend → Prop where
  | fromNew (config : BackendConfig) (native : NativeDriver) (b : Backend) (n : Nat) :
      Backend.new config native = (Except.ok b, n) → ReachableBackend b
  | fromClone (b : Backend) : ReachableBackend b → ReachableBackend b.clone

/-- A concrete OpenCL-style Framework with one discovered hardware unit,
used by the witnesses below. -/
def fwW : Framework :=
  ⟨"OPENCL", [⟨"gpu0"⟩], ⟨0⟩⟩

/-- A concrete native driver oracle whose context creation succeeds with
handle 7. -/
def nativeOkW : NativeDriver :=
  fun _ => Except.ok 7

/-- A concrete native driver oracle whose context creation fails with the
status "device not found". -/
def nativeDnfW : NativeDriver :=
  fun _ => Except.error (NativeError.DeviceNotFound "device not found")

/-- The Backend produced by `Backend.new` from `fwW`, its full hardware
list, and `nativeOkW`. -/
def backendW : Backend :=
  ⟨fwW, ⟨[⟨"gpu0"⟩], 7⟩⟩

/-- A character that Rust's Debug escaping keeps unchanged: printable ASCII
other than the double quote, the single quote and the backslash. -/
def plainChar (c : Char) : Prop :=
  c ≠ '"' ∧ c ≠ '\'' ∧ c ≠ '\\' ∧ 32 ≤ c.toNat ∧ c.toNat ≤ 126

instance (c : Char) : Decidable (plainChar c) := by
  unfold plainChar
  infer_instance

theorem escapeDebugChar_plain (c : Char) (h : plainChar c) :
    escapeDebugChar c = [c] := by
  obtain ⟨h1, h2, h3, h4, h5⟩ := h
  have hn : c ≠ '\n' := by rintro rfl; revert h4; decide
  have ht : c ≠ '\t' := by rintro rfl; revert h4; decide
  have hr : c ≠ '\r' := by rintro rfl; revert h4; decide
  simp [escapeDebugChar, h1, h2, h3, hn, ht, hr, h4, h5]

theorem escapeDebugList_plain (l : List Char) (h : ∀ c ∈ l, plainChar c) :
    escapeDebugList l = l := by
  induction l with
  | nil => rfl
  | cons c cs ih =>
      rw [escapeDebugList, escapeDebugChar_plain c (h c (by simp)),
        ih (fun x hx => h x (by simp [hx]))]
      rfl

theorem formatDebug_plain (m : String) (h : ∀ c ∈ m.data, plainChar c) :
    formatDebug m = "\"" ++ m ++ "\"" := by
  rw [formatDebug, escapeDebugList_plain m.data h]

/-- C1: for every Framework and Hardware subset, if the subset is empty or
contains an element outside the Framework's cached hardware list, then
`Backend::new` (via `Framework::new_device`) fails with a
ConfigurationError and the native device-creation call is never invoked
(the native-call count of the run is zero). -/
theorem backend_new_invalid_subset (fw : Framework) (subset : List Hardware)
    (native : NativeDriver)
    (h : subset = [] ∨ ∃ hd ∈ subset, hd ∉ fw.hardwares) :
    (∃ m, (Backend.new (BackendConfig.new fw subset) native).1
        = Except.error (Error.ConfigurationError m))
    ∧ (Backend.new (BackendConfig.new fw subset) native).2 = 0 := by
  rcases h with rfl | ⟨hd, hmem, hnot⟩
  · exact ⟨⟨"no hardware specified", rfl⟩, rfl⟩
  · have hne : subset ≠ [] := by rintro rfl; exact absurd hmem (List.not_mem_nil hd)
    have hnall : ¬ ∀ x ∈ subset, x ∈ fw.hardwares := fun hall => hnot (hall hd hmem)
    refine ⟨⟨"selected hardware not available", ?_⟩, ?_⟩ <;>
      simp [Backend.new, BackendConfig.new, Framework.newDevice, hne, hnall]

/-- C1 witness: the empty subset against the concrete framework `fwW` and a
succeeding native oracle. -/
theorem backend_new_invalid_subset_witness :
    (∃ m, (Backend.new (BackendConfig.new fwW []) nativeOkW).1
        = Except.error (Error.ConfigurationError m))
    ∧ (Backend.new (BackendConfig.new fwW []) nativeOkW).2 = 0 :=
  backend_new_invalid_subset fwW [] nativeOkW (Or.inl rfl)

/-- C2 counterexample: with the native status "device not found" raised
during Backend construction, the returned error's Display rendering is not
the framework name, " error: ", and the native message unchanged — the
Debug formatting used by the source adds quotation marks around the
message. -/
theorem backend_display_not_verbatim_counterexample :
    (Backend.new (BackendConfig.new fwW [⟨"gpu0"⟩]) nativeDnfW).1
      = Except.error (Error.Framework (FrameworkError.OpenCL
          (NativeError.DeviceNotFound "device not found")))
    ∧ Error.display (Error.Framework (FrameworkError.OpenCL
        (NativeError.DeviceNotFound "device not found")))
      ≠ "OpenCL error: device not found" :=
  ⟨rfl, by decide⟩

/-- C2 amended: for every native status failure whose message m consists of
characters Rust's Debug escaping keeps unchanged (printable ASCII other
than quote, apostrophe and backslash), the Display rendering of the
resulting error equals the originating framework's name, the literal text
" error: ", and then m enclosed in double quotes (the Debug rendering of
m), not m verbatim. -/
theorem error_display_quotes_message (e : NativeError)
    (h : ∀ c ∈ e.message.data, plainChar c) :
    Error.display (errorFromFramework (frameworkFromNative e))
      = "OpenCL error: \"" ++ e.message ++ "\"" := by
  have hd : NativeError.display e = formatDebug e.message := by cases e <;> rfl
  show FrameworkError.display (FrameworkError.OpenCL e) = _
  rw [FrameworkError.display, hd, formatDebug_plain e.message h,
    ← String.append_assoc, ← String.append_assoc]
  rfl

/-- C2 amended witness: the concrete message "device not found". -/
theorem error_display_quotes_message_witness :
    Error.display (errorFromFramework (frameworkFromNative
        (NativeError.DeviceNotFound "device not found")))
      = "OpenCL error: \"device not found\"" :=
  error_display_quotes_message (NativeError.DeviceNotFound "device not found")
    (by decide)

/-- C3: `Backend::new` delegates to
`config.framework.new_device(config.hardwares)`; a failure of that call is
returned to the caller unchanged (same error value, same native-call
count, no retry), and a success yields a Backend storing the config's
Framework and the produced Device. -/
theorem backend_new_delegates (config : BackendConfig) (native : NativeDriver) :
    (∀ e n, config.framework.newDevice native config.hardwares = (Except.error e, n)
        → Backend.new config native = (Except.error e, n))
    ∧ (∀ d n, config.framework.newDevice native config.hardwares = (Except.ok d, n)
        → Backend.new config native = (Except.ok ⟨config.framework, d⟩, n)) := by
  constructor <;> intro x n hx <;> simp [Backend.new, hx]

/-- C3 witness: the concrete framework `fwW` with a failing native oracle;
the native failure surfaces unchanged through `Backend.new`. -/
theorem backend_new_delegates_witness :
    Backend.new (BackendConfig.new fwW [⟨"gpu0"⟩]) nativeDnfW
      = (Except.error (Error.Framework (FrameworkError.OpenCL
          (NativeError.DeviceNotFound "device not found"))), 1) :=
  (backend_new_delegates (BackendConfig.new fwW [⟨"gpu0"⟩]) nativeDnfW).1 _ 1 rfl

/-- C4: the conversion from the native error into the framework-level Error
and the conversion from the framework-level Error into the crate-wide
Error are lossless wrappings: unwrapping recovers the original value with
its message (description) intact, and the framework-level wrapping is a
bijection onto the framework-level Error type. -/
theorem error_conversions_lossless :
    (∀ e : NativeError, (frameworkFromNative e).unwrap = e
        ∧ (frameworkFromNative e).description = e.description)
    ∧ ∀ fe : FrameworkError, (errorFromFramework fe).unwrapFramework = some fe
        ∧ frameworkFromNative fe.unwrap = fe :=
  ⟨fun _ => ⟨rfl, rfl⟩, fun fe => ⟨rfl, by cases fe; rfl⟩⟩

/-- C5: for every framework-level Error value, `description()` returns
exactly the wrapped native error's message string and `cause()` returns
the wrapped native error value, over every variant of the wrapped native
enumeration. -/
theorem framework_error_forwards (fe : FrameworkError) :
    fe.description = fe.unwrap.message ∧ fe.cause = some fe.unwrap := by
  cases fe with
  | OpenCL e => exact ⟨by cases e <;> rfl, rfl⟩

/-- C6 counterexample: no framework-level Error value is tagged as
originating from CUDA — the enumeration in src/framework.rs has only the
OpenCL variant, although Backend<Cuda> is a supported specialization. -/
theorem no_cuda_framework_error_counterexample :
    ¬ ∃ fe : FrameworkError, frameworkErrorOrigin fe = "CUDA" := by
  rintro ⟨fe, hfe⟩
  cases fe
  simp only [frameworkErrorOrigin] at hfe
  exact absurd hfe (by decide)

/-- C6 amended: the framework-level Error type has exactly one variant,
OpenCL — every value is the OpenCL wrapping of its native error and is
tagged as originating from OpenCL; CUDA failures have no framework-level
representation; the ConfigurationError variant exists at the crate-wide
layer and is produced by device construction without any native call. -/
theorem framework_error_opencl_only (e : NativeError) (fw : Framework)
    (native : NativeDriver) :
    frameworkErrorOrigin (frameworkFromNative e) = "OpenCL"
    ∧ (∀ fe : FrameworkError, frameworkErrorOrigin fe = "OpenCL"
        ∧ fe = frameworkFromNative fe.unwrap)
    ∧ (∃ m, (fw.newDevice native []).1 = Except.error (Error.ConfigurationError m))
    ∧ (fw.newDevice native []).2 = 0 :=
  ⟨rfl, fun fe => by cases fe; exact ⟨rfl, rfl⟩,
    ⟨"no hardware specified", rfl⟩, rfl⟩

/-- C7: the accessors hardwares(), framework(), device() and binary() are
pure: each leaves the Backend (its Framework's cached hardware list
included) unchanged, issues zero native calls, and a second consecutive
call returns the same value. -/
theorem backend_accessors_pure (b : Backend) :
    (b.hardwaresAcc.2.1 = b ∧ b.hardwaresAcc.2.2 = 0
      ∧ (b.hardwaresAcc.2.1).hardwaresAcc.1 = b.hardwaresAcc.1)
    ∧ (b.frameworkAcc.2.1 = b ∧ b.frameworkAcc.2.2 = 0
      ∧ (b.frameworkAcc.2.1).frameworkAcc.1 = b.frameworkAcc.1)
    ∧ (b.deviceAcc.2.1 = b ∧ b.deviceAcc.2.2 = 0
      ∧ (b.deviceAcc.2.1).deviceAcc.1 = b.deviceAcc.1)
    ∧ (b.binaryAcc.2.1 = b ∧ b.binaryAcc.2.2 = 0
      ∧ (b.binaryAcc.2.1).binaryAcc.1 = b.binaryAcc.1) :=
  ⟨⟨rfl, rfl, rfl⟩, ⟨rfl, rfl, rfl⟩, ⟨rfl, rfl, rfl⟩, ⟨rfl, rfl, rfl⟩⟩

/-- C8: each implemented (Backend specialization, precision) capability pair
— IBlas f32 for Backend OpenCL, IBlas f32 for Backend Native, IBlas f64
for Backend Native — returns through binary() the same value as the
underlying Backend's binary(), and through device() the same value as the
underlying Backend's device(). -/
theorem blas_capability_same_accessors (b : Backend) :
    blasF32OpenCL_binary b = b.binaryVal ∧ blasF32OpenCL_device b = b.deviceVal
    ∧ blasF32Native_binary b = b.binaryVal ∧ blasF32Native_device b = b.deviceVal
    ∧ blasF64Native_binary b = b.binaryVal ∧ blasF64Native_device b = b.deviceVal :=
  ⟨rfl, rfl, rfl, rfl, rfl, rfl⟩

/-- C9: every Backend value reachable through the public interface (results
of `Backend::new` and clones of reachable values) is the result of a
successful `Backend::new` call on some BackendConfig. -/
theorem backend_only_from_new (b : Backend) (h : ReachableBackend b) :
    ∃ (config : BackendConfig) (native : NativeDriver) (n : Nat),
      Backend.new config native = (Except.ok b, n) := by
  induction h with
  | fromNew config native b n hnew => exact ⟨config, native, n, hnew⟩
  | fromClone b hb ih => exact ih

/-- C9 witness: the concrete Backend `backendW`, reachable from a successful
construction over `fwW`. -/
theorem backend_only_from_new_witness :
    ∃ (config : BackendConfig) (native : NativeDriver) (n : Nat),
      Backend.new config native = (Except.ok backendW, n) :=
  backend_only_from_new backendW
    (ReachableBackend.fromNew (BackendConfig.new fwW [⟨"gpu0"⟩]) nativeOkW
      backendW 1 rfl)

/-- C10: every native error's cause() is None, so the cause chain from a
framework-level Error terminates after exactly one hop: its cause() is the
wrapped native error, whose cause() is None. -/
theorem error_cause_chain (e : NativeError) (fe : FrameworkError) :
    e.cause = none ∧ fe.cause = some fe.unwrap ∧ fe.unwrap.cause = none :=
  ⟨by cases e <;> rfl, by cases fe; rfl, by cases fe.unwrap <;> rfl⟩

end Collenchyma
